import Mathlib

/-!
Verification of the `ai_weather_report` service (src/main.py) against its
natural-language specification.

The Python source is shallowly embedded below.  Pure functions become Lean
functions; the external collaborators (weather provider, language-model
provider, email provider) become oracle parameters returning `Except`;
Python exceptions become `Except.error` / `Option.none`; Python `datetime`
values are modelled as naive wall-clock seconds (an `Int`), with the UTC
offset of the server process and of the request timezone passed explicitly,
because `datetime.fromtimestamp` interprets an epoch in the server local
timezone.
-/

set_option autoImplicit false

namespace WeatherReport

/-- `Location` pydantic model (src/main.py lines 31-33). -/
structure Location where
  city : String
  country : String
deriving Repr, DecidableEq

/-- `WeatherPreferences` pydantic model (src/main.py lines 24-28). -/
structure WeatherPreferences where
  temperature : Bool := true
  humidity : Bool := false
  wind_speed : Bool := false
  cloudiness : Bool := false
deriving Repr, DecidableEq

/-- `WeatherRequest` pydantic model (src/main.py lines 36-40). -/
structure WeatherRequest where
  locations : List Location
  preferences : WeatherPreferences
  receiver_emails : List String
  timezone : String := "Asia/Kolkata"
deriving Repr, DecidableEq

/-- The fields of the current-conditions JSON object that src/main.py reads.
Python floats are modelled as exact rationals; `.get` with a default is an
`Option` field. -/
structure CurrentData where
  dt : Int
  weather_id : Int
  weather_description : String
  temp : ℚ
  feels_like : ℚ
  humidity : Int
  wind_speed : ℚ
  wind_deg : Option Int
  clouds_all : Int
  pressure : Int
  visibility : Option Int
  sunrise : Int
  sunset : Int
deriving Repr, DecidableEq

/-- One entry of `forecast_data["list"]` as read by src/main.py. -/
structure ForecastPoint where
  dt : Int
  temp : ℚ
  temp_min : ℚ
  temp_max : ℚ
  description : String
  icon : String
  pop : Option ℚ
deriving Repr, DecidableEq

/-- The only field of the pollution JSON that src/main.py reads:
`pollution_data["list"][0]["main"]["aqi"]`. -/
structure PollutionData where
  aqi : Int
deriving Repr, DecidableEq

/-- One record of `readers.json`, the persona registry. -/
structure Persona where
  name : String
  affiliation : String
  country : String
  usp : String
deriving Repr, DecidableEq

/-- `celsius_to_fahrenheit` (src/main.py lines 68-69). -/
def celsius_to_fahrenheit (celsius : ℚ) : ℚ :=
  (celsius * 9 / 5) + 32

/-- `get_weather_description` (src/main.py lines 88-102): the chain of
`if weather_id < 300 / < 500 / < 600 / < 700 / < 800 / == 800 / else`. -/
def get_weather_description (weather_id : Int) : String :=
  if weather_id < 300 then "Thunderstorm"
  else if weather_id < 500 then "Drizzle"
  else if weather_id < 600 then "Rain"
  else if weather_id < 700 then "Snow"
  else if weather_id < 800 then "Atmosphere"
  else if weather_id = 800 then "Clear"
  else "Clouds"

/-- The `aqi_labels` dict lookup of src/main.py lines 176-177.  A Python
dict subscript on a missing key raises `KeyError`, modelled as `none`. -/
def aqi_labels (aqi : Int) : Option String :=
  if aqi = 1 then some "Good"
  else if aqi = 2 then some "Fair"
  else if aqi = 3 then some "Moderate"
  else if aqi = 4 then some "Poor"
  else if aqi = 5 then some "Very Poor"
  else none

/-! ## Time model

Python `datetime.fromtimestamp(epoch)` interprets the epoch in the SERVER
local timezone and returns a naive wall-clock value.  We model a naive
datetime as its wall-clock value in seconds (an `Int`), and carry the UTC
offsets (in seconds) of the server local timezone and of the request target
timezone as explicit parameters. -/

/-- `datetime.fromtimestamp(epoch)`: the naive server-local wall clock for
the given UTC epoch, as seconds. -/
def fromtimestamp (epoch serverOffset : Int) : Int :=
  epoch + serverOffset

/-- The chain `datetime.fromtimestamp(e).replace(tzinfo=pytz.UTC).astimezone(tz)`
of src/main.py lines 109-113 (and 157-166): the naive server-local wall
clock is relabelled as UTC, then converted to the target timezone, so the
displayed wall clock is `epoch + serverOffset + tzOffset` seconds. -/
def displayed_time (epoch serverOffset tzOffset : Int) : Int :=
  fromtimestamp epoch serverOffset + tzOffset

/-- `.date()` of a naive wall-clock value: the calendar day number
(floor-division of wall-clock seconds by 86400). -/
def localDate (epoch serverOffset : Int) : Int :=
  (fromtimestamp epoch serverOffset).fdiv 86400

/-- The `today_forecasts` comprehension of `get_expected_max_min`
(src/main.py lines 73-78): `today` comes from `datetime.now().date()`,
i.e. the server-local date of the current instant `nowEpoch`, and the
filter compares each entry's server-local date with it. -/
def today_forecasts (forecast_list : List ForecastPoint)
    (serverOffset nowEpoch : Int) : List ForecastPoint :=
  forecast_list.filter
    (fun f => localDate f.dt serverOffset = localDate nowEpoch serverOffset)

/-- `get_expected_max_min` (src/main.py lines 72-85): the empty check of
line 80 and the Python `max`/`min` over the nonempty comprehension, the
latter as a fold over head and tail. -/
def get_expected_max_min (forecast_list : List ForecastPoint)
    (serverOffset nowEpoch : Int) : Option ℚ × Option ℚ :=
  match today_forecasts forecast_list serverOffset nowEpoch with
  | [] => (none, none)
  | f :: fs =>
    (some ((fs.map (fun g => g.temp_max)).foldl max f.temp_max),
     some ((fs.map (fun g => g.temp_min)).foldl min f.temp_min))

/-- Stride counter for the Python slice `l[::8]`: `k` is the distance to
the next kept element (`k = 0` keeps the head and resets to 7). -/
def sliceEvery8Aux {α : Type _} : Nat → List α → List α
  | _, [] => []
  | 0, a :: rest => a :: sliceEvery8Aux 7 rest
  | n + 1, _ :: rest => sliceEvery8Aux n rest

/-- Python slice `l[::8]` (src/main.py lines 181 and 457): every 8th
element starting at index 0. -/
def sliceEvery8 {α : Type _} (l : List α) : List α :=
  sliceEvery8Aux 0 l

/-- One line of the 5-day forecast block of the plain-text report
(src/main.py lines 181-190): the displayed date wall clock, the slot
temperature, the provider description and the precipitation probability
in percent (`forecast.get("pop", 0) * 100`). -/
structure ForecastLine where
  date_wall : Int
  temp : ℚ
  description : String
  pop_pct : ℚ
deriving Repr, DecidableEq

/-- The content of the plain-text report built by `summarize_weather`
(src/main.py lines 105-192), as a record of the rendered fields in report
order.  Optional lines are `Option`: `none` means the line is omitted.
Times are the displayed wall-clock seconds produced by the
`fromtimestamp/replace/astimezone` chain.  The string interpolation
itself (f-strings, `%.1f`, `strftime`) is abstracted to this record;
every claim about the report concerns these fields, not the glue text. -/
structure WeatherSummary where
  city : String
  country : String
  current_time : Int
  weather_description : String
  temperature : Option (ℚ × ℚ)
  expected_range : Option (ℚ × ℚ)
  humidity : Option Int
  wind : Option (ℚ × Option Int)
  cloudiness : Option Int
  pressure : Int
  visibility_km : Option ℚ
  sunrise : Int
  sunset : Int
  day_length : Int
  aqi_label : String
  forecast_lines : List ForecastLine
deriving Repr, DecidableEq

/-- `summarize_weather` (src/main.py lines 105-192).  The unmapped-AQI
dict subscript `aqi_labels[aqi]` raises `KeyError`, so the whole function
is fallible: `Except.error` models the raised exception.  The
`temperature` field gates both the temp/feels-like lines and the
expected-range line; the range line additionally needs both aggregator
results to be non-`None` (lines 133-135).  `expected_range` stores
`(min, max)` in the order the line prints them. -/
def summarize_weather (location : Location) (current_data : CurrentData)
    (forecast_list : List ForecastPoint) (pollution_data : PollutionData)
    (preferences : WeatherPreferences)
    (serverOffset tzOffset nowEpoch : Int) : Except String WeatherSummary :=
  let em := get_expected_max_min forecast_list serverOffset nowEpoch
  match aqi_labels pollution_data.aqi with
  | none => .error "KeyError: unmapped air quality index"
  | some aqiLbl => .ok
    { city := location.city
      country := location.country
      current_time := displayed_time current_data.dt serverOffset tzOffset
      weather_description := get_weather_description current_data.weather_id
      temperature :=
        if preferences.temperature then
          some (current_data.temp, current_data.feels_like)
        else none
      expected_range :=
        if preferences.temperature then
          match em.1, em.2 with
          | some expected_max, some expected_min =>
            some (expected_min, expected_max)
          | _, _ => none
        else none
      humidity :=
        if preferences.humidity then some current_data.humidity else none
      wind :=
        if preferences.wind_speed then
          some (current_data.wind_speed, current_data.wind_deg)
        else none
      cloudiness :=
        if preferences.cloudiness then some current_data.clouds_all else none
      pressure := current_data.pressure
      visibility_km := current_data.visibility.map (fun v => (v : ℚ) / 1000)
      sunrise := displayed_time current_data.sunrise serverOffset tzOffset
      sunset := displayed_time current_data.sunset serverOffset tzOffset
      day_length := displayed_time current_data.sunset serverOffset tzOffset
        - displayed_time current_data.sunrise serverOffset tzOffset
      aqi_label := aqiLbl
      forecast_lines := (sliceEvery8 forecast_list).map (fun f =>
        { date_wall := displayed_time f.dt serverOffset tzOffset
          temp := f.temp
          description := f.description
          pop_pct := (f.pop.getD 0) * 100 }) }

/-- The plain-text rendering of a `WeatherSummary`, fed to the narration
prompt.  No claim inspects this text, so numeric fields render through
`toString`; the line structure follows src/main.py lines 116-190. -/
def renderSummary (s : WeatherSummary) : String :=
  "Weather report for " ++ s.city ++ ", " ++ s.country ++ ":\n\n"
    ++ "Report generated at: " ++ toString s.current_time ++ "\n\n"
    ++ "Current weather: " ++ s.weather_description ++ "\n"
    ++ (match s.temperature with
        | none => ""
        | some (t, fl) =>
          "Current temperature: " ++ toString t ++ "\n"
            ++ "Feels like: " ++ toString fl ++ "\n")
    ++ (match s.expected_range with
        | none => ""
        | some (mn, mx) =>
          "Expected range: " ++ toString mn ++ " to " ++ toString mx ++ "\n")
    ++ (match s.humidity with
        | none => ""
        | some h => "Humidity: " ++ toString h ++ "%\n")
    ++ (match s.wind with
        | none => ""
        | some (ws, wd) =>
          "Wind speed: " ++ toString ws ++ " m/s\n"
            ++ "Wind direction: "
            ++ (match wd with | none => "N/A" | some d => toString d) ++ "\n")
    ++ (match s.cloudiness with
        | none => ""
        | some c => "Cloudiness: " ++ toString c ++ "%\n")
    ++ "Atmospheric Pressure: " ++ toString s.pressure ++ " hPa\n"
    ++ (match s.visibility_km with
        | none => ""
        | some v => "Visibility: " ++ toString v ++ " km\n")
    ++ "Sunrise: " ++ toString s.sunrise ++ "\n"
    ++ "Sunset: " ++ toString s.sunset ++ "\n"
    ++ "Day length: " ++ toString s.day_length ++ "\n"
    ++ "Air Quality Index: " ++ s.aqi_label ++ "\n\n"
    ++ "5-day forecast:\n"
    ++ String.join (s.forecast_lines.map (fun f =>
        toString f.date_wall ++ ": " ++ toString f.temp ++ ", "
          ++ f.description ++ ", " ++ toString f.pop_pct
          ++ "% chance of precipitation\n"))

/-! ## strftime model

`process_weather_request` formats naive datetimes with
`%Y-%m-%d %H:%M:%S`, `%H:%M` and `%Y-%m-%d`.  A naive datetime is a
wall-clock value in seconds; the calendar fields come from the standard
civil-from-days conversion of the proleptic Gregorian calendar. -/

/-- Zero-padded two-digit rendering of a (nonnegative) field value. -/
def pad2 (n : Int) : String :=
  if n < 10 then "0" ++ toString n else toString n

/-- Civil date (year, month, day) of a day number counted from 1970-01-01,
by the standard era decomposition of the Gregorian calendar. -/
def civilFromDays (z0 : Int) : Int × Int × Int :=
  let z := z0 + 719468
  let era := z.fdiv 146097
  let doe := z - era * 146097
  let yoe := (doe - doe / 1460 + doe / 36524 - doe / 146096) / 365
  let y := yoe + era * 400
  let doy := doe - (365 * yoe + yoe / 4 - yoe / 100)
  let mp := (5 * doy + 2) / 153
  let d := doy - (153 * mp + 2) / 5 + 1
  let m := mp + (if mp < 10 then 3 else -9)
  (y + (if m ≤ 2 then 1 else 0), m, d)

/-- `strftime("%Y-%m-%d")` of a naive wall-clock value in seconds. -/
def fmtYMD (wall : Int) : String :=
  match civilFromDays (wall.fdiv 86400) with
  | (y, m, d) => toString y ++ "-" ++ pad2 m ++ "-" ++ pad2 d

/-- `strftime("%H:%M")` of a naive wall-clock value in seconds. -/
def fmtHM (wall : Int) : String :=
  let s := wall.emod 86400
  pad2 (s.fdiv 3600) ++ ":" ++ pad2 ((s.fdiv 60).emod 60)

/-- `strftime("%Y-%m-%d %H:%M:%S")` of a naive wall-clock value. -/
def fmtYMDHMS (wall : Int) : String :=
  fmtYMD wall ++ " " ++ fmtHM wall ++ ":" ++ pad2 (wall.emod 60)

/-! ## Persona narration -/

/-- The prompt built by `generate_ai_summary` (src/main.py lines 216-222)
for the selected reader. -/
def narration_prompt (reader : Persona) (weather_summary : String) : String :=
  "Summarize this weather report in a friendly, conversational tone as if by "
    ++ reader.name ++ ", a renowned weather presenter from "
    ++ reader.affiliation ++ " in " ++ reader.country ++ ". "
    ++ reader.name ++ " is known for " ++ reader.usp ++ "."
    ++ "Always generate in English language ONLY."
    ++ "Use emoticons as much as possible: " ++ weather_summary ++ " "

/-- `generate_ai_summary` (src/main.py lines 195-243).  The
`random.choice` over the readers.json registry is modelled by the
explicit `reader` argument, and the Azure chat-completion call by the
`llm` oracle; the call has no surrounding try/except, so an oracle error
propagates. -/
def generate_ai_summary (reader : Persona)
    (llm : String → Except String String)
    (weather_summary : String) : Except String String :=
  match llm (narration_prompt reader weather_summary) with
  | .error e => .error e
  | .ok content => .ok
    ("AI-generated summary:\nPersonality used today: " ++ reader.name
      ++ " from " ++ reader.affiliation ++ " in " ++ reader.country ++ "\n"
      ++ reader.usp ++ ".\n\n" ++ content)

/-! ## Email dispatch -/

/-- The `sendgrid.helpers.mail.Mail` value built by `send_email`
(src/main.py lines 249-254).  The constructor there passes the body as
`plain_text_content`; there is no html-content argument and no mode flag,
so the structure has exactly these four fields. -/
structure Mail where
  from_email : String
  to_emails : List String
  subject : String
  plain_text_content : String
deriving Repr, DecidableEq

/-- `send_email` (src/main.py lines 246-260).  The embedding returns the
message handed to the provider together with the printed log lines.  The
provider call sits inside try/except, so a provider error produces the
log line of line 260 and the function still returns normally: the result
type carries no `Except`. -/
def send_email (provider : Mail → Except String Int) (sender : String)
    (receiver_emails : List String) (subject body : String) :
    Mail × List String :=
  let message : Mail :=
    { from_email := sender
      to_emails := receiver_emails
      subject := subject
      plain_text_content := body }
  let logs := ["Email body:", body] ++
    (match provider message with
     | .ok code => ["Email sent. Status Code: " ++ toString code]
     | .error e => ["Error sending email: " ++ e])
  (message, logs)

/-! ## HTML renderer

`generate_html_ui` (src/main.py lines 262-421) interpolates a per-location
summary dict into a fixed HTML/CSS template.  Literal braces of the CSS
(written `\x7b\x7d` in the Python f-string) appear below as the escapes
`\x7b` and `\x7d`; numeric interpolations go through `pyStr`. -/

/-- The `current_weather` sub-dict built at src/main.py lines 439-450. -/
structure HtmlCurrentWeather where
  temperature : ℚ
  feels_like : ℚ
  humidity : Int
  wind_speed : ℚ
  air_quality : Int
  air_quality_color : String
  description : String
  timestamp : String
  sunrise : String
  sunset : String
deriving Repr, DecidableEq

/-- One entry of the `forecast` list of dicts built at src/main.py
lines 451-458. -/
structure HtmlForecastDay where
  day : String
  temp : ℚ
  icon : String
  description : String
deriving Repr, DecidableEq

/-- The `weather_summary_dict` shape built at src/main.py lines 437-460. -/
structure HtmlWeatherSummary where
  location : String
  current_weather : HtmlCurrentWeather
  forecast : List HtmlForecastDay
  ai_summary : String
deriving Repr, DecidableEq

/-- Rendering of a numeric value interpolated into an f-string.  Python
prints the float repr; the exact digit string is not load-bearing for any
claim, so the embedding renders the exact rational. -/
def pyStr (q : ℚ) : String := toString q

/-- `create_forecast_card` (src/main.py lines 268-278). -/
def create_forecast_card (day_data : HtmlForecastDay) : String :=
  "\n            <div class=\"forecast-day\">\n                <div class=\"day\">"
    ++ day_data.day
    ++ "</div>\n                <div class=\"weather-icon\">\n                    <img src=\"path_to_icons/"
    ++ day_data.icon ++ ".svg\" alt=\"" ++ day_data.description
    ++ "\">\n                </div>\n                <div class=\"temp\">"
    ++ pyStr day_data.temp
    ++ "°C</div>\n                <div class=\"description\">"
    ++ day_data.description
    ++ "</div>\n            </div>\n        "

/-- The constant head of the HTML template, up to the interpolated
location in the `<title>` (src/main.py lines 280-286). -/
def html_doc_head : String :=
  "\n    <!DOCTYPE html>\n    <html>\n    <head>\n        <meta charset=\"UTF-8\">\n        <meta name=\"viewport\" content=\"width=device-width, initial-scale=1.0\">\n        <title>Weather Report - "

/-- The constant `<style>` block of the template, from the end of the
title to the interpolated air-quality colour (src/main.py lines 287-360). -/
def html_style_block : String :=
  "</title>\n        <style>\n            :root \x7b\n                --primary-color: #1a73e8;\n                --text-color: #202124;\n                --secondary-text: #5f6368;\n                --background: #ffffff;\n                --card-shadow: 0 1px 3px rgba(0,0,0,0.12);\n            \x7d\n            \n            body \x7b\n                font-family: \x27Segoe UI\x27, Arial, sans-serif;\n                margin: 0;\n                padding: 20px;\n                background-color: #f0f5ff;\n                color: var(--text-color);\n            \x7d\n            \n            .weather-card \x7b\n                background: var(--background);\n                border-radius: 12px;\n                padding: 24px;\n                max-width: 800px;\n                margin: 0 auto;\n                box-shadow: var(--card-shadow);\n            \x7d\n            \n            .location \x7b\n                display: flex;\n                justify-content: space-between;\n                align-items: center;\n                margin-bottom: 20px;\n            \x7d\n            \n            .current-weather \x7b\n                display: grid;\n                grid-template-columns: auto 1fr;\n                gap: 20px;\n                margin-bottom: 30px;\n            \x7d\n            \n            .temperature \x7b\n                font-size: 48px;\n                font-weight: 400;\n            \x7d\n            \n            .weather-details \x7b\n                display: grid;\n                grid-template-columns: repeat(2, 1fr);\n                gap: 16px;\n                margin: 20px 0;\n            \x7d\n            \n            .detail-item \x7b\n                display: flex;\n                align-items: center;\n                gap: 8px;\n            \x7d\n            \n            .forecast \x7b\n                display: grid;\n                grid-template-columns: repeat(5, 1fr);\n                gap: 16px;\n                margin-top: 30px;\n                text-align: center;\n            \x7d\n            \n            .forecast-day \x7b\n                padding: 12px;\n                border-radius: 8px;\n                background: #f8f9fa;\n            \x7d\n            \n            .air-quality \x7b\n                color: "

/-- `generate_html_ui` (src/main.py lines 262-421): the full template
with its interpolations, `html_doc_head` first. -/
def generate_html_ui (weather_summary : HtmlWeatherSummary) : String :=
  html_doc_head ++
  (weather_summary.location
    ++ html_style_block
    ++ weather_summary.current_weather.air_quality_color
    ++ ";\n                font-weight: 500;\n            \x7d\n        </style>\n    </head>\n    <body>\n        <div class=\"weather-card\">\n            <div class=\"location\">\n                <div>\n                    <h2>"
    ++ weather_summary.location
    ++ "</h2>\n                </div>\n                <div>"
    ++ weather_summary.current_weather.timestamp
    ++ "</div>\n            </div>\n            \n            <div class=\"current-weather\">\n                <div class=\"temperature\">\n                    "
    ++ pyStr weather_summary.current_weather.temperature
    ++ "°C\n                    <div style=\"font-size: 16px;\">"
    ++ weather_summary.current_weather.description
    ++ "</div>\n                </div>\n                \n                <div class=\"weather-details\">\n                    <div class=\"detail-item\">\n                        <span>Feels Like</span>\n                        <span>"
    ++ pyStr weather_summary.current_weather.feels_like
    ++ "°C</span>\n                    </div>\n                    <div class=\"detail-item\">\n                        <span>Humidity</span>\n                        <span>"
    ++ toString weather_summary.current_weather.humidity
    ++ "%</span>\n                    </div>\n                    <div class=\"detail-item\">\n                        <span>Wind</span>\n                        <span>"
    ++ pyStr weather_summary.current_weather.wind_speed
    ++ " m/s</span>\n                    </div>\n                    <div class=\"detail-item\">\n                        <span>Air Quality</span>\n                        <span class=\"air-quality\">"
    ++ toString weather_summary.current_weather.air_quality
    ++ "</span>\n                    </div>\n                    <div class=\"detail-item\">\n                        <span>Sunrise</span>\n                        <span>"
    ++ weather_summary.current_weather.sunrise
    ++ "</span>\n                    </div>\n                    <div class=\"detail-item\">\n                        <span>Sunset</span>\n                        <span>"
    ++ weather_summary.current_weather.sunset
    ++ "</span>\n                    </div>\n                </div>\n            </div>\n            \n            <hr style=\"border: none; border-top: 1px solid #e0e0e0; margin: 24px 0;\">\n            <div class=\"ai-summary\" style=\"padding: 16px; background: #f8f9fa; border-radius: 8px; margin-bottom: 24px; line-height: 1.5;\">\n                "
    ++ weather_summary.ai_summary
    ++ "\n            </div>\n            \n            <div class=\"forecast\">\n                "
    ++ String.join (weather_summary.forecast.map create_forecast_card)
    ++ "\n            </div>\n        </div>\n    </body>\n    </html>\n    ")

/-! ## Request orchestrator -/

/-- Ambient inputs of one background run: the UTC offset (seconds) of the
server local timezone, the UTC offset of the request target timezone (the
`pytz.timezone(...)` lookup), the current instant used by
`datetime.now(...)`, the configured sender address, and the persona that
`random.choice` selects. -/
structure Env where
  serverOffset : Int
  tzOffset : Int
  nowEpoch : Int
  sender : String
  reader : Persona

/-- The three external collaborators, as oracles: `get_weather_data`
(src/main.py lines 43-65, its three HTTP calls collapsed into one fetch of
the triple it returns), the chat-completion call and the SendGrid send. -/
structure Providers where
  fetch : Location → Except String (CurrentData × List ForecastPoint × PollutionData)
  llm : String → Except String String
  email : Mail → Except String Int

/-- The `weather_summary_dict` literal of src/main.py lines 437-460,
given the already-computed narration string.  All its timestamps come
from bare `datetime.fromtimestamp(...)` with no timezone conversion, so
they are server-local wall clocks. -/
def weather_summary_dict (location : Location) (current_data : CurrentData)
    (forecast_list : List ForecastPoint) (pollution_data : PollutionData)
    (ai : String) (serverOffset : Int) : HtmlWeatherSummary :=
  { location := location.city ++ ", " ++ location.country
    current_weather :=
      { temperature := current_data.temp
        feels_like := current_data.feels_like
        humidity := current_data.humidity
        wind_speed := current_data.wind_speed
        air_quality := pollution_data.aqi
        air_quality_color :=
          if pollution_data.aqi < 3 then "green" else "red"
        description := current_data.weather_description
        timestamp := fmtYMDHMS (fromtimestamp current_data.dt serverOffset)
        sunrise := fmtHM (fromtimestamp current_data.sunrise serverOffset)
        sunset := fmtHM (fromtimestamp current_data.sunset serverOffset) }
    forecast := (sliceEvery8 forecast_list).map (fun f =>
      { day := fmtYMD (fromtimestamp f.dt serverOffset)
        temp := f.temp
        icon := f.icon
        description := f.description })
    ai_summary := ai }

/-- One iteration of the location loop of `process_weather_request`
(src/main.py lines 425-461): fetch, summarize, narrate, build the dict,
render.  No stage is wrapped in try/except, so the first error
propagates. -/
def process_location (env : Env) (p : Providers)
    (preferences : WeatherPreferences) (location : Location) :
    Except String String :=
  match p.fetch location with
  | .error e => .error e
  | .ok (current_data, forecast_list, pollution_data) =>
    match summarize_weather location current_data forecast_list
        pollution_data preferences env.serverOffset env.tzOffset
        env.nowEpoch with
    | .error e => .error e
    | .ok ws =>
      match generate_ai_summary env.reader p.llm (renderSummary ws) with
      | .error e => .error e
      | .ok ai => .ok (generate_html_ui
          (weather_summary_dict location current_data forecast_list
            pollution_data ai env.serverOffset))

/-- The `full_report` accumulation loop of src/main.py lines 424-461:
`full_report += generate_html_ui(...)` per location, in request order. -/
def build_full_report (env : Env) (p : Providers)
    (preferences : WeatherPreferences) :
    List Location → String → Except String String
  | [], acc => .ok acc
  | loc :: rest, acc =>
    match process_location env p preferences loc with
    | .error e => .error e
    | .ok sec => build_full_report env p preferences rest (acc ++ sec)

/-- `process_weather_request` (src/main.py lines 423-464).  On success the
result carries the effects of the final `send_email` call: the message
handed to the email provider and the log lines.  An `Except.error` is the
exception that terminated the background unit before `send_email` ran.
The subject uses `datetime.now(pytz.timezone(...))`, which is a correct
target-timezone conversion of the current instant. -/
def process_weather_request (env : Env) (p : Providers)
    (req : WeatherRequest) : Except String (Mail × List String) :=
  match build_full_report env p req.preferences req.locations "" with
  | .error e => .error e
  | .ok full_report =>
    let subject := "Weather Report - " ++ fmtYMD (env.nowEpoch + env.tzOffset)
    .ok (send_email p.email env.sender req.receiver_emails subject
      full_report)

/-- The messages handed to the email provider during one background run:
one per completed `send_email` call, none when the unit aborted first. -/
def emailSends : Except String (Mail × List String) → List Mail
  | .ok (m, _) => [m]
  | .error _ => []

/-- The printed log of a completed background run (empty if it aborted). -/
def runLogs : Except String (Mail × List String) → List String
  | .ok (_, logs) => logs
  | .error _ => []

/-- Concatenation of one rendered section per location, in order. -/
def joinSections (section_of : Location → String) : List Location → String
  | [] => ""
  | loc :: rest => section_of loc ++ joinSections section_of rest

/-! ## Concrete sample data (used by witnesses) -/

/-- A sample request location. -/
def sampleLocation : Location := { city := "Mumbai", country := "IN" }

/-- A second sample location. -/
def sampleLocation2 : Location := { city := "Paris", country := "FR" }

/-- Sample current-conditions data; `dt = 43200` is 12:00 UTC on
1970-01-01. -/
def sampleCurrent : CurrentData :=
  { dt := 43200, weather_id := 800, weather_description := "clear sky"
    temp := 25, feels_like := 26, humidity := 60, wind_speed := 3
    wind_deg := some 180, clouds_all := 10, pressure := 1013
    visibility := none, sunrise := 3600, sunset := 46800 }

/-- Sample pollution data with a given air-quality index. -/
def samplePollution (aqi : Int) : PollutionData := { aqi := aqi }

/-- Default preferences (temperature only), as the pydantic defaults. -/
def samplePrefs : WeatherPreferences := {}

/-- A sample persona record. -/
def sampleReader : Persona :=
  { name := "Alice", affiliation := "BBC", country := "UK"
    usp := "calm delivery" }

/-- A sample forecast point dated by its epoch with given extremes. -/
def samplePoint (dt : Int) (mn mx : ℚ) : ForecastPoint :=
  { dt := dt, temp := mx, temp_min := mn, temp_max := mx
    description := "clear sky", icon := "01d", pop := some 1 }

/-- A 40-entry forecast list (5 days of 3-hour slots). -/
def fortyPoints : List ForecastPoint :=
  (List.range 40).map (fun i => samplePoint (10800 * (i : Int)) 10 20)

/-- A sample run environment: server in UTC, request timezone
Asia/Kolkata (UTC+5:30 = 19800 s), current instant at epoch 0. -/
def sampleEnv : Env :=
  { serverOffset := 0, tzOffset := 19800, nowEpoch := 0
    sender := "reports@example.com", reader := sampleReader }

/-- Providers where every external call succeeds. -/
def okProviders : Providers :=
  { fetch := fun _ => .ok (sampleCurrent, [], samplePollution 1)
    llm := fun _ => .ok "Sunny and pleasant!"
    email := fun _ => .ok 202 }

/-- The narration string `generate_ai_summary` produces for
`sampleReader` when the model answers "Sunny and pleasant!". -/
def sampleAI : String :=
  "AI-generated summary:\nPersonality used today: " ++ sampleReader.name
    ++ " from " ++ sampleReader.affiliation ++ " in " ++ sampleReader.country
    ++ "\n" ++ sampleReader.usp ++ ".\n\n" ++ "Sunny and pleasant!"

/-- The HTML section `process_location` renders for a location under
`okProviders` and `sampleEnv`. -/
def sampleSectionOf (loc : Location) : String :=
  generate_html_ui (weather_summary_dict loc sampleCurrent []
    (samplePollution 1) sampleAI 0)

/-- The summary record for `sampleCurrent` under `sampleEnv` (server in
UTC, target UTC+5:30): e.g. `current_time = 43200 + 0 + 19800 = 63000`. -/
def sampleSummary : WeatherSummary :=
  { city := "Mumbai", country := "IN"
    current_time := 63000
    weather_description := "Clear"
    temperature := some (25, 26)
    expected_range := none
    humidity := none
    wind := none
    cloudiness := none
    pressure := 1013
    visibility_km := none
    sunrise := 23400
    sunset := 66600
    day_length := 43200
    aqi_label := "Good"
    forecast_lines := [] }

/-- Providers whose language-model call always fails. -/
def llmFailProviders : Providers :=
  { okProviders with llm := fun _ => .error "rate limited" }

/-- Providers whose email send always fails. -/
def emailFailProviders : Providers :=
  { okProviders with email := fun _ => .error "unauthorized" }

/-- A one-location request. -/
def sampleRequest : WeatherRequest :=
  { locations := [sampleLocation], preferences := {}
    receiver_emails := ["alice@example.com"] }

/-- A two-location request. -/
def twoLocRequest : WeatherRequest :=
  { locations := [sampleLocation, sampleLocation2], preferences := {}
    receiver_emails := ["alice@example.com", "bob@example.com"] }

/-! ## Claim theorems -/

/-- C3: the air-quality label function maps exactly 1-5 to
Good/Fair/Moderate/Poor/Very Poor, and any other index fails the lookup
(`none`, the `KeyError`), which makes `summarize_weather` fail hard
rather than default. -/
theorem claim_C3_aqi_labels (i : Int) :
    aqi_labels 1 = some "Good"
  ∧ aqi_labels 2 = some "Fair"
  ∧ aqi_labels 3 = some "Moderate"
  ∧ aqi_labels 4 = some "Poor"
  ∧ aqi_labels 5 = some "Very Poor"
  ∧ ((i < 1 ∨ 5 < i) → aqi_labels i = none)
  ∧ (∀ (location : Location) (current_data : CurrentData)
      (forecast_list : List ForecastPoint)
      (pollution_data : PollutionData)
      (preferences : WeatherPreferences)
      (serverOffset tzOffset nowEpoch : Int),
      aqi_labels pollution_data.aqi = none →
      summarize_weather location current_data forecast_list pollution_data
        preferences serverOffset tzOffset nowEpoch =
        .error "KeyError: unmapped air quality index") := by
  refine ⟨by decide, by decide, by decide, by decide, by decide, ?_, ?_⟩
  · intro h
    unfold aqi_labels
    split_ifs <;> first | rfl | (exfalso; omega)
  · intro location current_data forecast_list pollution_data preferences
      serverOffset tzOffset nowEpoch h
    unfold summarize_weather
    rw [h]

/-- C3 witness: index 0 is unmapped and makes `summarize_weather` fail. -/
theorem claim_C3_witness :
    aqi_labels 0 = none
  ∧ summarize_weather sampleLocation sampleCurrent [] (samplePollution 0)
      samplePrefs 0 19800 0 = .error "KeyError: unmapped air quality index" :=
  ⟨(claim_C3_aqi_labels 0).2.2.2.2.2.1 (by decide),
   (claim_C3_aqi_labels 0).2.2.2.2.2.2 sampleLocation sampleCurrent []
     (samplePollution 0) samplePrefs 0 19800 0 (by decide)⟩

/-- C4 counterexample: a negative code satisfies the first branch
`weather_id < 300` and yields "Thunderstorm", not "Clouds" as claimed. -/
theorem claim_C4_counterexample :
    get_weather_description (-1) = "Thunderstorm"
  ∧ ¬ get_weather_description (-1) = "Clouds" := by
  decide

/-- C4 amended: only codes strictly above 800 fall through to the last
branch "Clouds"; every negative (or otherwise undefined low) code is
instead caught by the first `< 300` branch and labelled "Thunderstorm". -/
theorem claim_C4_amended (code : Int) :
    (code < 0 → get_weather_description code = "Thunderstorm")
  ∧ (800 < code → get_weather_description code = "Clouds") := by
  constructor <;> intro h <;> unfold get_weather_description <;>
    split_ifs <;> first | rfl | (exfalso; omega)

/-- C4 amended witness: -273 maps to "Thunderstorm", 805 to "Clouds". -/
theorem claim_C4_witness :
    get_weather_description (-273) = "Thunderstorm"
  ∧ get_weather_description 805 = "Clouds" :=
  ⟨(claim_C4_amended (-273)).1 (by decide),
   (claim_C4_amended 805).2 (by decide)⟩

/-- C5: the condition-label function realizes exactly the documented
bands with boundaries at 300, 500, 600, 700, 800. -/
theorem claim_C5_condition_label_boundaries (code : Int) :
    (code < 300 → get_weather_description code = "Thunderstorm")
  ∧ (300 ≤ code → code < 500 → get_weather_description code = "Drizzle")
  ∧ (500 ≤ code → code < 600 → get_weather_description code = "Rain")
  ∧ (600 ≤ code → code < 700 → get_weather_description code = "Snow")
  ∧ (700 ≤ code → code < 800 → get_weather_description code = "Atmosphere")
  ∧ (code = 800 → get_weather_description code = "Clear")
  ∧ (800 < code → get_weather_description code = "Clouds") := by
  refine ⟨?_, ?_, ?_, ?_, ?_, ?_, ?_⟩ <;> intros <;>
    unfold get_weather_description <;>
    split_ifs <;> first | rfl | (exfalso; omega)

/-- C5 witness: the boundary examples 299, 300, 800, 801. -/
theorem claim_C5_witness :
    get_weather_description 299 = "Thunderstorm"
  ∧ get_weather_description 300 = "Drizzle"
  ∧ get_weather_description 800 = "Clear"
  ∧ get_weather_description 801 = "Clouds" :=
  ⟨(claim_C5_condition_label_boundaries 299).1 (by decide),
   (claim_C5_condition_label_boundaries 300).2.1 (by decide) (by decide),
   (claim_C5_condition_label_boundaries 800).2.2.2.2.2.1 (by decide),
   (claim_C5_condition_label_boundaries 801).2.2.2.2.2.2 (by decide)⟩

/-- Folding `max` over a list starting from `a` lands in `a :: l`. -/
theorem foldl_max_mem (l : List ℚ) (a : ℚ) : l.foldl max a ∈ a :: l := by
  induction l generalizing a with
  | nil => simp
  | cons b t ih =>
    simp only [List.foldl_cons]
    rcases List.mem_cons.1 (ih (max a b)) with h1 | h1
    · rcases max_choice a b with h2 | h2
      · rw [h1, h2]; exact List.mem_cons_self _ _
      · rw [h1, h2]; exact List.mem_cons_of_mem _ (List.mem_cons_self _ _)
    · exact List.mem_cons_of_mem _ (List.mem_cons_of_mem _ h1)

/-- Folding `max` over a list starting from `a` bounds `a :: l` above. -/
theorem le_foldl_max (l : List ℚ) : ∀ a x : ℚ, x ∈ a :: l → x ≤ l.foldl max a := by
  induction l with
  | nil => intro a x hx; rw [List.mem_singleton] at hx; simp [hx]
  | cons b t ih =>
    intro a x hx
    simp only [List.foldl_cons]
    rcases List.mem_cons.1 hx with h1 | h1
    · subst h1
      exact le_trans (le_max_left x b)
        (ih (max x b) (max x b) (List.mem_cons_self _ _))
    · rcases List.mem_cons.1 h1 with h2 | h2
      · subst h2
        exact le_trans (le_max_right a x)
          (ih (max a x) (max a x) (List.mem_cons_self _ _))
      · exact ih (max a b) x (List.mem_cons_of_mem _ h2)

/-- Folding `min` over a list starting from `a` lands in `a :: l`. -/
theorem foldl_min_mem (l : List ℚ) (a : ℚ) : l.foldl min a ∈ a :: l := by
  induction l generalizing a with
  | nil => simp
  | cons b t ih =>
    simp only [List.foldl_cons]
    rcases List.mem_cons.1 (ih (min a b)) with h1 | h1
    · rcases min_choice a b with h2 | h2
      · rw [h1, h2]; exact List.mem_cons_self _ _
      · rw [h1, h2]; exact List.mem_cons_of_mem _ (List.mem_cons_self _ _)
    · exact List.mem_cons_of_mem _ (List.mem_cons_of_mem _ h1)

/-- Folding `min` over a list starting from `a` bounds `a :: l` below. -/
theorem foldl_min_le (l : List ℚ) : ∀ a x : ℚ, x ∈ a :: l → l.foldl min a ≤ x := by
  induction l with
  | nil => intro a x hx; rw [List.mem_singleton] at hx; simp [hx]
  | cons b t ih =>
    intro a x hx
    simp only [List.foldl_cons]
    rcases List.mem_cons.1 hx with h1 | h1
    · subst h1
      exact le_trans (ih (min x b) (min x b) (List.mem_cons_self _ _))
        (min_le_left x b)
    · rcases List.mem_cons.1 h1 with h2 | h2
      · subst h2
        exact le_trans (ih (min a x) (min a x) (List.mem_cons_self _ _))
          (min_le_right a x)
      · exact ih (min a b) x (List.mem_cons_of_mem _ h2)

/-- C6: the daily-extremes aggregator returns `(none, none)` when no
forecast entry falls on the server-local current date, and otherwise the
maximum of the matching entries' max-temperatures paired with the minimum
of their min-temperatures. -/
theorem claim_C6_daily_extremes (forecast : List ForecastPoint)
    (serverOffset nowEpoch : Int) :
    (today_forecasts forecast serverOffset nowEpoch = [] →
      get_expected_max_min forecast serverOffset nowEpoch = (none, none))
  ∧ (∀ f fs, today_forecasts forecast serverOffset nowEpoch = f :: fs →
      ∃ mx mn,
        get_expected_max_min forecast serverOffset nowEpoch
          = (some mx, some mn)
        ∧ mx ∈ (f :: fs).map (fun g => g.temp_max)
        ∧ (∀ x ∈ (f :: fs).map (fun g => g.temp_max), x ≤ mx)
        ∧ mn ∈ (f :: fs).map (fun g => g.temp_min)
        ∧ (∀ x ∈ (f :: fs).map (fun g => g.temp_min), mn ≤ x)) := by
  constructor
  · intro h
    unfold get_expected_max_min
    rw [h]
  · intro f fs h
    unfold get_expected_max_min
    rw [h]
    refine ⟨(fs.map (fun g => g.temp_max)).foldl max f.temp_max,
      (fs.map (fun g => g.temp_min)).foldl min f.temp_min, rfl, ?_, ?_, ?_, ?_⟩
    · simpa using foldl_max_mem (fs.map (fun g => g.temp_max)) f.temp_max
    · intro x hx
      apply le_foldl_max
      simpa using hx
    · simpa using foldl_min_mem (fs.map (fun g => g.temp_min)) f.temp_min
    · intro x hx
      apply foldl_min_le
      simpa using hx

/-- C6 witness: an empty list yields `(none, none)`, and the spec's
two-point example dated today (min 10 / max 20 and min 5 / max 25)
yields `(25, 5)`. -/
theorem claim_C6_witness :
    get_expected_max_min [] 0 0 = (none, none)
  ∧ (∃ mx mn,
      get_expected_max_min [samplePoint 0 10 20, samplePoint 3600 5 25] 0 0
        = (some mx, some mn)
      ∧ mx ∈ ([samplePoint 0 10 20, samplePoint 3600 5 25].map
          (fun g => g.temp_max))
      ∧ (∀ x ∈ [samplePoint 0 10 20, samplePoint 3600 5 25].map
          (fun g => g.temp_max), x ≤ mx)
      ∧ mn ∈ ([samplePoint 0 10 20, samplePoint 3600 5 25].map
          (fun g => g.temp_min))
      ∧ (∀ x ∈ [samplePoint 0 10 20, samplePoint 3600 5 25].map
          (fun g => g.temp_min), mn ≤ x))
  ∧ get_expected_max_min [samplePoint 0 10 20, samplePoint 3600 5 25] 0 0
      = (some 25, some 5) :=
  ⟨(claim_C6_daily_extremes [] 0 0).1 rfl,
   (claim_C6_daily_extremes [samplePoint 0 10 20, samplePoint 3600 5 25]
      0 0).2 (samplePoint 0 10 20) [samplePoint 3600 5 25] (by decide),
   by decide⟩

/-- Length of the stride slice from counter `k`. -/
theorem sliceEvery8Aux_length {α : Type _} :
    ∀ (l : List α) (k : Nat),
      (sliceEvery8Aux k l).length = ((l.length - k) + 7) / 8
  | [], k => by simp [sliceEvery8Aux]
  | a :: rest, 0 => by
    simp only [sliceEvery8Aux, List.length_cons]
    rw [sliceEvery8Aux_length rest 7]
    omega
  | a :: rest, n + 1 => by
    simp only [sliceEvery8Aux, List.length_cons]
    rw [sliceEvery8Aux_length rest n]
    omega

/-- The stride-8 slice of a list has length `(n + 7) / 8`. -/
theorem sliceEvery8_length {α : Type _} (l : List α) :
    (sliceEvery8 l).length = (l.length + 7) / 8 := by
  unfold sliceEvery8
  rw [sliceEvery8Aux_length]
  omega

/-- Elements of the stride slice from counter `k`. -/
theorem sliceEvery8Aux_getElem? {α : Type _} :
    ∀ (l : List α) (k i : Nat),
      (sliceEvery8Aux k l)[i]? = l[k + 8 * i]?
  | [], k, i => by simp [sliceEvery8Aux]
  | a :: rest, 0, 0 => by simp [sliceEvery8Aux]
  | a :: rest, 0, i + 1 => by
    simp only [sliceEvery8Aux, List.getElem?_cons_succ]
    rw [sliceEvery8Aux_getElem? rest 7 i]
    have h8 : 0 + 8 * (i + 1) = (7 + 8 * i) + 1 := by omega
    rw [h8, List.getElem?_cons_succ]
  | a :: rest, n + 1, i => by
    simp only [sliceEvery8Aux]
    rw [sliceEvery8Aux_getElem? rest n i]
    have h8 : n + 1 + 8 * i = (n + 8 * i) + 1 := by omega
    rw [h8, List.getElem?_cons_succ]

/-- The `i`-th element of the stride-8 slice is the `8*i`-th element of
the original list. -/
theorem sliceEvery8_getElem? {α : Type _} (l : List α) (i : Nat) :
    (sliceEvery8 l)[i]? = l[8 * i]? := by
  unfold sliceEvery8
  rw [sliceEvery8Aux_getElem?]
  have h0 : 0 + 8 * i = 8 * i := by omega
  rw [h0]

/-- C7: on a 40-entry forecast list the stride-8 sample has exactly 5
entries, which are the original entries at indices 0, 8, 16, 24, 32;
both the plain-text report and the HTML dict take their outlook from
this sample unchanged. -/
theorem claim_C7_five_day_outlook (forecast : List ForecastPoint)
    (h : forecast.length = 40) :
    (sliceEvery8 forecast).length = 5
  ∧ (∀ i : Nat, i < 5 → (sliceEvery8 forecast)[i]? = forecast[8 * i]?)
  ∧ (∀ (location : Location) (current_data : CurrentData)
      (pollution_data : PollutionData) (ai : String) (serverOffset : Int),
      ((weather_summary_dict location current_data forecast pollution_data
        ai serverOffset).forecast).length = 5)
  ∧ (∀ (location : Location) (current_data : CurrentData)
      (pollution_data : PollutionData) (preferences : WeatherPreferences)
      (serverOffset tzOffset nowEpoch : Int) (ws : WeatherSummary),
      summarize_weather location current_data forecast pollution_data
        preferences serverOffset tzOffset nowEpoch = .ok ws →
      ws.forecast_lines.length = 5) := by
  refine ⟨?_, ?_, ?_, ?_⟩
  · rw [sliceEvery8_length, h]
  · intro i _
    exact sliceEvery8_getElem? forecast i
  · intro location current_data pollution_data ai serverOffset
    unfold weather_summary_dict
    simp [sliceEvery8_length, h]
  · intro location current_data pollution_data preferences serverOffset
      tzOffset nowEpoch ws hws
    unfold summarize_weather at hws
    rcases haqi : aqi_labels pollution_data.aqi with _ | lbl
    · rw [haqi] at hws
      exact absurd hws (by simp)
    · rw [haqi] at hws
      injection hws with h2
      rw [← h2]
      simp [sliceEvery8_length, h]

/-- C7 witness: the concrete 40-entry list. -/
theorem claim_C7_witness :
    fortyPoints.length = 40
  ∧ (sliceEvery8 fortyPoints).length = 5
  ∧ (∀ i : Nat, i < 5 → (sliceEvery8 fortyPoints)[i]? = fortyPoints[8 * i]?) := by
  have hlen : fortyPoints.length = 40 := by decide
  exact ⟨hlen, (claim_C7_five_day_outlook fortyPoints hlen).1,
    (claim_C7_five_day_outlook fortyPoints hlen).2.1⟩

/-- C1 (refuted; code bug): displayed times depend on the server's local
timezone.  For `current.dt = 43200` (12:00 UTC) and target Asia/Kolkata
(+19800 s), the claim demands wall clock `43200 + 19800 = 63000` s
(17:30).  The text report's chain renders
`epoch + serverOffset + tzOffset`: with the server itself in Asia/Kolkata
that is `82800` s (23:00), not 17:30.  The HTML dict renders the bare
server-local `fromtimestamp` with no target conversion at all: with the
server in UTC its timestamp reads 12:00:00, not 17:30:00. -/
theorem claim_C1_timezone_rendering :
    displayed_time 43200 19800 19800 = 82800
  ∧ (43200 : Int) + 19800 = 63000
  ∧ (82800 : Int) ≠ 63000
  ∧ (summarize_weather sampleLocation sampleCurrent [] (samplePollution 1)
      samplePrefs 19800 19800 0).map (fun ws => ws.current_time) = .ok 82800
  ∧ fromtimestamp 43200 0 = 43200
  ∧ (weather_summary_dict sampleLocation sampleCurrent [] (samplePollution 1)
      "ai" 0).current_weather.timestamp = "1970-01-01 12:00:00"
  ∧ "1970-01-01 12:00:00" ≠ "1970-01-01 17:30:00" :=
  ⟨rfl, rfl, by decide, rfl, rfl, rfl, by decide⟩

/-- Splitting the report-accumulation loop at a list append. -/
theorem build_full_report_append (env : Env) (p : Providers)
    (preferences : WeatherPreferences) :
    ∀ (l₁ l₂ : List Location) (acc : String),
      build_full_report env p preferences (l₁ ++ l₂) acc =
        (match build_full_report env p preferences l₁ acc with
          | .error e => .error e
          | .ok acc2 => build_full_report env p preferences l₂ acc2) := by
  intro l₁
  induction l₁ with
  | nil => intro l₂ acc; simp [build_full_report]
  | cons x xs ih =>
    intro l₂ acc
    simp only [List.cons_append, build_full_report]
    cases h : process_location env p preferences x with
    | error e => simp
    | ok sec => exact ih l₂ (acc ++ sec)

/-- When every location renders a section, the accumulation loop returns
the concatenation of the sections after the accumulator. -/
theorem build_full_report_of_sections (env : Env) (p : Providers)
    (preferences : WeatherPreferences) (section_of : Location → String) :
    ∀ (l : List Location) (acc : String),
      (∀ loc ∈ l,
        process_location env p preferences loc = .ok (section_of loc)) →
      build_full_report env p preferences l acc
        = .ok (acc ++ joinSections section_of l) := by
  intro l
  induction l with
  | nil =>
    intro acc _
    simp [build_full_report, joinSections, String.append_empty]
  | cons x xs ih =>
    intro acc h
    simp only [build_full_report, joinSections,
      h x (List.mem_cons_self x xs)]
    rw [ih (acc ++ section_of x)
      (fun y hy => h y (List.mem_cons_of_mem x hy))]
    rw [String.append_assoc]

/-- When every location renders a section, the whole background run
completes with the single dispatch of the concatenated body. -/
theorem process_sections (env : Env) (p : Providers) (req : WeatherRequest)
    (section_of : Location → String)
    (hok : ∀ loc ∈ req.locations,
      process_location env p req.preferences loc = .ok (section_of loc)) :
    process_weather_request env p req =
      .ok (send_email p.email env.sender req.receiver_emails
        ("Weather Report - " ++ fmtYMD (env.nowEpoch + env.tzOffset))
        (joinSections section_of req.locations)) := by
  have hb := build_full_report_of_sections env p req.preferences section_of
    req.locations "" hok
  rw [String.empty_append] at hb
  simp only [process_weather_request, hb]

/-- A section produced by `process_location` is an HTML document: it
starts with the constant template head. -/
theorem process_location_html (env : Env) (p : Providers)
    (preferences : WeatherPreferences) (loc : Location) (s : String)
    (h : process_location env p preferences loc = .ok s) :
    ∃ rest, s = html_doc_head ++ rest := by
  unfold process_location at h
  rcases hf : p.fetch loc with e | ⟨current_data, forecast_list, pollution_data⟩
  · simp only [hf] at h
    exact absurd h (by simp)
  · simp only [hf] at h
    rcases hs : summarize_weather loc current_data forecast_list
        pollution_data preferences env.serverOffset env.tzOffset
        env.nowEpoch with e | ws
    · simp only [hs] at h
      exact absurd h (by simp)
    · simp only [hs] at h
      rcases ha : generate_ai_summary env.reader p.llm (renderSummary ws)
          with e | ai
      · simp only [ha] at h
        exact absurd h (by simp)
      · simp only [ha] at h
        injection h with h2
        exact ⟨_, h2.symm⟩

/-- C2: if, after the earlier locations succeeded, the narration call
for some location fails, the whole background unit aborts with that
error and no email-send call occurs. -/
theorem claim_C2_narration_error_aborts
    (env : Env) (p : Providers) (req : WeatherRequest)
    (l₁ l₂ : List Location) (loc : Location) (acc : String)
    (current_data : CurrentData) (forecast_list : List ForecastPoint)
    (pollution_data : PollutionData) (ws : WeatherSummary) (e : String)
    (hlocs : req.locations = l₁ ++ loc :: l₂)
    (hpre : build_full_report env p req.preferences l₁ "" = .ok acc)
    (hfetch : p.fetch loc = .ok (current_data, forecast_list, pollution_data))
    (hsum : summarize_weather loc current_data forecast_list pollution_data
      req.preferences env.serverOffset env.tzOffset env.nowEpoch = .ok ws)
    (hllm : p.llm (narration_prompt env.reader (renderSummary ws))
      = .error e) :
    process_weather_request env p req = .error e
  ∧ emailSends (process_weather_request env p req) = [] := by
  have hploc : process_location env p req.preferences loc = .error e := by
    simp only [process_location, hfetch, hsum, generate_ai_summary, hllm]
  have hbuild : build_full_report env p req.preferences req.locations ""
      = .error e := by
    rw [hlocs, build_full_report_append env p req.preferences l₁ (loc :: l₂) ""]
    rw [hpre]
    simp only [build_full_report, hploc]
  have hproc : process_weather_request env p req = .error e := by
    simp only [process_weather_request, hbuild]
  exact ⟨hproc, by rw [hproc]; rfl⟩

/-- C2 witness: a failing narration provider on a one-location request. -/
theorem claim_C2_witness :
    process_weather_request sampleEnv llmFailProviders sampleRequest
      = .error "rate limited"
  ∧ emailSends
      (process_weather_request sampleEnv llmFailProviders sampleRequest)
      = [] :=
  claim_C2_narration_error_aborts sampleEnv llmFailProviders sampleRequest
    [] [] sampleLocation "" sampleCurrent [] (samplePollution 1)
    sampleSummary "rate limited" rfl rfl rfl (by rfl) rfl

/-- C8: when the accumulation succeeded and the email provider rejects
the constructed message, the error is only logged: the background unit
still ends in the `ok` state, with the message it attempted and the
"Error sending email" log line, and nothing is re-raised. -/
theorem claim_C8_email_error_swallowed (env : Env) (p : Providers)
    (req : WeatherRequest) (body e : String)
    (hbuild : build_full_report env p req.preferences req.locations ""
      = .ok body)
    (hemail : p.email
      { from_email := env.sender, to_emails := req.receiver_emails,
        subject := "Weather Report - " ++ fmtYMD (env.nowEpoch + env.tzOffset),
        plain_text_content := body } = .error e) :
    process_weather_request env p req =
      .ok ({ from_email := env.sender, to_emails := req.receiver_emails,
             subject := "Weather Report - "
               ++ fmtYMD (env.nowEpoch + env.tzOffset),
             plain_text_content := body },
           ["Email body:", body, "Error sending email: " ++ e]) := by
  simp only [process_weather_request, hbuild, send_email, hemail]
  simp

/-- C8 witness: a failing email provider on a one-location request. -/
theorem claim_C8_witness :
    process_weather_request sampleEnv emailFailProviders sampleRequest =
      .ok ({ from_email := sampleEnv.sender,
             to_emails := sampleRequest.receiver_emails,
             subject := "Weather Report - "
               ++ fmtYMD (sampleEnv.nowEpoch + sampleEnv.tzOffset),
             plain_text_content := "" ++ sampleSectionOf sampleLocation },
           ["Email body:", "" ++ sampleSectionOf sampleLocation,
            "Error sending email: " ++ "unauthorized"]) :=
  claim_C8_email_error_swallowed sampleEnv emailFailProviders sampleRequest
    ("" ++ sampleSectionOf sampleLocation) "unauthorized" (by rfl) (by rfl)

/-- C9: when every location's pipeline succeeds, exactly one message
goes to the email provider, and its body is the concatenation of the
per-location sections in request order. -/
theorem claim_C9_single_send_concatenation (env : Env) (p : Providers)
    (req : WeatherRequest) (section_of : Location → String)
    (hok : ∀ loc ∈ req.locations,
      process_location env p req.preferences loc = .ok (section_of loc)) :
    emailSends (process_weather_request env p req) =
      [{ from_email := env.sender
         to_emails := req.receiver_emails
         subject := "Weather Report - " ++ fmtYMD (env.nowEpoch + env.tzOffset)
         plain_text_content := joinSections section_of req.locations }] := by
  rw [process_sections env p req section_of hok]
  simp only [emailSends, send_email]

/-- C9 witness: a two-location request whose single send carries the two
concatenated sections in request order. -/
theorem claim_C9_witness :
    emailSends (process_weather_request sampleEnv okProviders twoLocRequest) =
      [{ from_email := sampleEnv.sender
         to_emails := twoLocRequest.receiver_emails
         subject := "Weather Report - "
           ++ fmtYMD (sampleEnv.nowEpoch + sampleEnv.tzOffset)
         plain_text_content :=
           joinSections sampleSectionOf twoLocRequest.locations }] :=
  claim_C9_single_send_concatenation sampleEnv okProviders twoLocRequest
    sampleSectionOf (by
      intro loc hloc
      rcases List.mem_cons.1 hloc with h1 | h1
      · subst h1; rfl
      · rcases List.mem_cons.1 h1 with h2 | h2
        · subst h2; rfl
        · cases h2)

/-- C10: the dispatcher hands the body to the provider in the
plain-text-content field of the message, whatever the body is; on a
successful run that body is the concatenation of the per-location
sections, each of which is an HTML document (it starts with the
template's doctype head). -/
theorem claim_C10_plain_text_dispatch (env : Env) (p : Providers)
    (req : WeatherRequest) (section_of : Location → String)
    (hok : ∀ loc ∈ req.locations,
      process_location env p req.preferences loc = .ok (section_of loc)) :
    (∀ (provider : Mail → Except String Int) (sender : String)
      (receiver_emails : List String) (subject body : String),
      (send_email provider sender receiver_emails subject
        body).1.plain_text_content = body)
  ∧ (∀ m ∈ emailSends (process_weather_request env p req),
      m.plain_text_content = joinSections section_of req.locations)
  ∧ (∀ loc ∈ req.locations, ∃ rest, section_of loc = html_doc_head ++ rest) := by
  refine ⟨?_, ?_, ?_⟩
  · intro provider sender receiver_emails subject body
    rfl
  · intro m hm
    rw [process_sections env p req section_of hok] at hm
    simp only [emailSends, send_email, List.mem_singleton] at hm
    rw [hm]
  · intro loc hloc
    exact process_location_html env p req.preferences loc (section_of loc)
      (hok loc hloc)

/-- C10 witness: the two-location request again; the one dispatched
message carries the HTML concatenation as plain-text content. -/
theorem claim_C10_witness :
    (∀ (provider : Mail → Except String Int) (sender : String)
      (receiver_emails : List String) (subject body : String),
      (send_email provider sender receiver_emails subject
        body).1.plain_text_content = body)
  ∧ (∀ m ∈ emailSends
      (process_weather_request sampleEnv okProviders twoLocRequest),
      m.plain_text_content =
        joinSections sampleSectionOf twoLocRequest.locations)
  ∧ (∀ loc ∈ twoLocRequest.locations,
      ∃ rest, sampleSectionOf loc = html_doc_head ++ rest) :=
  claim_C10_plain_text_dispatch sampleEnv okProviders twoLocRequest
    sampleSectionOf (by
      intro loc hloc
      rcases List.mem_cons.1 hloc with h1 | h1
      · subst h1; rfl
      · rcases List.mem_cons.1 h1 with h2 | h2
        · subst h2; rfl
        · cases h2)

end WeatherReport
